import Mathlib

/-!
# Verification of the MCP server proxy core (`src/server.ts`)

Shallow embedding of the `MCPServerProxy` class from `src/server.ts`.

Modelling conventions:
* The mutable fields of the class (`config`, `clients`, `toolMap`,
  `currentProfile`, `transports`) become the record `ProxyState`.
  JS `Map`s are modelled as association lists (`mapGet` / `mapSet`
  reproduce `Map.get` / `Map.set`: lookup of the first matching key,
  in-place overwrite of an existing key, append of a new key).
  The `clients` map's values (SDK `Client` handles) are opaque, so the
  map is carried as its list of keys; the `transports` object likewise.
* External effects (file system + JSON parse in `readConfig`,
  `client.connect`, `client.listTools`, `client.callTool`,
  `transport.handlePostMessage`) are supplied by an `Env` record of
  deterministic oracle functions.
* A TS `async` method that can throw while having already mutated
  `this` is modelled as returning `ProxyState × Option String`:
  the state at the point of the throw, plus the thrown message
  (`none` = normal return).  Methods that cannot throw are total
  functions.
* An `arguments` record and a backend tool-call result are opaque
  payloads: the proxy passes both through without inspecting them.
-/

set_option autoImplicit false

namespace MCPProxy

/-- A tool as reported by a backend server (`Tool` of the MCP SDK):
a name, an optional description, and an opaque input schema that the
proxy passes through unmodified. -/
structure Tool where
  name : String
  description : Option String
  inputSchema : String
  deriving DecidableEq, Repr

/-- `ToolInfo` from `src/server.ts`: the owning backend id together with
the original tool record. -/
structure ToolInfo where
  serverId : String
  tool : Tool
  deriving DecidableEq, Repr

/-- One entry of `ServerConfig.mcpServers`.  The TS type is a union
`{command, args} | {url}`, but the value comes from `JSON.parse`, so at
runtime either field may be absent; `connectToServer` checks for the
case where both are missing.  We model both fields as optional. -/
structure BackendConfig where
  command : Option (String × List String)
  url : Option String
  deriving DecidableEq, Repr

/-- `ServerConfig` from `src/server.ts`: the parsed
`config.<profile>.json`.  `mcpServers` is a JSON object, modelled as an
association list of (backend id, backend config). -/
structure ServerConfig where
  mcpServers : List (String × BackendConfig)
  deriving DecidableEq, Repr

/-- Opaque `arguments` payload of a tool call (`Record<string, unknown>`). -/
abbrev Args := List (String × String)

/-- Opaque result payload returned by a backend's `callTool`. -/
abbrev ToolResult := String

/-- JS `Map.get` on an association list: the value of the first entry
with the given key. -/
def mapGet {α : Type} (m : List (String × α)) (k : String) : Option α :=
  (m.find? (fun p => p.1 == k)).map (fun p => p.2)

/-- JS `Map.set` on an association list: overwrite the existing entry in
place, or append a new one. -/
def mapSet {α : Type} (m : List (String × α)) (k : String) (v : α) :
    List (String × α) :=
  if m.any (fun p => p.1 == k) then
    m.map (fun p => if p.1 == k then (k, v) else p)
  else
    m ++ [(k, v)]

/-- The mutable fields of the `MCPServerProxy` instance. -/
structure ProxyState where
  config : ServerConfig
  clients : List String
  toolMap : List (String × ToolInfo)
  currentProfile : String
  transports : List String
  deriving DecidableEq, Repr

/-- The state set up by the `MCPServerProxy` constructor: empty config,
no clients, no tools, profile `"default"`, no SSE transports. -/
def initState : ProxyState :=
  { config := ⟨[]⟩
    clients := []
    toolMap := []
    currentProfile := "default"
    transports := [] }

/-- An HTTP response produced by the Express `/messages` route:
status code plus body. -/
structure HttpResponse where
  status : Nat
  body : String
  deriving DecidableEq, Repr

/-- Deterministic oracles for every external effect the proxy performs.
`readConfig p` is the outcome of reading and parsing
`config.<p>.json`; `connect sid cfg` is `client.connect` for backend
`sid` (`some e` = the connect threw `e`); `listTools sid` is
`client.listTools`; `callTool sid name args` is `client.callTool`;
`handlePostMessage sid` is `transport.handlePostMessage` on session
`sid`. -/
structure Env where
  readConfig : String → Except String ServerConfig
  connect : String → BackendConfig → Option String
  listTools : String → Except String (List Tool)
  callTool : String → String → Args → Except String ToolResult
  handlePostMessage : String → Except String HttpResponse

/-- `MCPServerProxy.connectToServer` (`src/server.ts:92-131`).
Returns the state at exit together with the thrown message, if any:
* backend id already in `clients` → immediate return, no effect;
* neither `command` nor `url` in the config → throw before any effect;
* `client.connect` throws → no effect;
* after a successful connect the client is registered, then
  `client.listTools` runs — if it throws, the client stays registered
  with no tools; on success each tool is added to `toolMap` under
  `<serverId>_<toolName>`. -/
def connectToServer (env : Env) (s : ProxyState) (serverId : String)
    (config : BackendConfig) : ProxyState × Option String :=
  if s.clients.contains serverId then
    (s, none)
  else if config.command.isNone && config.url.isNone then
    (s, some "Command or url not found in config")
  else
    match env.connect serverId config with
    | some e => (s, some e)
    | none =>
      let s1 := { s with clients := s.clients ++ [serverId] }
      match env.listTools serverId with
      | .error e => (s1, some e)
      | .ok tools =>
        ({ s1 with
            toolMap := tools.foldl
              (fun m tool =>
                mapSet m (serverId ++ "_" ++ tool.name) ⟨serverId, tool⟩)
              s1.toolMap },
          none)

/-- The state effect of `MCPServerProxy.cleanup` (`src/server.ts:341-361`):
every SSE transport is closed (best effort, errors swallowed) and the
`transports` object is reset; each client's transport is closed (best
effort, errors swallowed) but the `clients` map itself is NOT cleared
here. -/
def cleanup (s : ProxyState) : ProxyState :=
  { s with transports := [] }

/-- `MCPServerProxy.readConfig` (`src/server.ts:78-90`) as a state step:
on success the parsed config replaces `s.config`; on failure `config`
is unchanged and `Failed to load profile <p>` is thrown. -/
def readConfig (env : Env) (s : ProxyState) (profile : String) :
    ProxyState × Option String :=
  match env.readConfig profile with
  | .ok cfg => ({ s with config := cfg }, none)
  | .error _ => (s, some ("Failed to load profile " ++ profile))

/-- `MCPServerProxy.switchProfile` (`src/server.ts:208-229`):
`cleanup()`, clear `clients` and `toolMap`, load the new profile's
config (a throw here propagates), set `currentProfile`, then connect to
every configured backend, catching and logging per-backend errors. -/
def switchProfile (env : Env) (s : ProxyState) (profileName : String) :
    ProxyState × Option String :=
  let s0 := cleanup s
  let s1 := { s0 with clients := [], toolMap := [] }
  match readConfig env s1 profileName with
  | (s2, some e) => (s2, some e)
  | (s2, none) =>
    let s3 := { s2 with currentProfile := profileName }
    let s4 := s3.config.mcpServers.foldl
      (fun st p => (connectToServer env st p.1 p.2).1) s3
    (s4, none)

/-- `MCPServerProxy.handleListTools` (`src/server.ts:133-144`): the
decorated listing of the tool map.  Pure: reads the state, never
mutates it, never throws. -/
def handleListTools (s : ProxyState) : List Tool :=
  s.toolMap.map (fun p =>
    { p.2.tool with
        name := p.2.serverId ++ "_" ++ p.2.tool.name
        description := some ("[" ++ s.currentProfile ++ "/" ++ p.2.serverId
          ++ "] " ++ p.2.tool.description.getD "") })

/-- The error-response record built by `handleCallTool`:
`{content: [{type: "text", text}], isError: true, _meta}`. -/
structure ErrorResponse where
  contentType : String
  text : String
  isError : Bool
  meta : Option String
  deriving DecidableEq, Repr

/-- Result of `handleCallTool`: either a proxy-built error response or
the backend's result forwarded verbatim. -/
inductive CallToolResult where
  | err (r : ErrorResponse)
  | ok (r : ToolResult)
  deriving DecidableEq, Repr

/-- `MCPServerProxy.handleCallTool` (`src/server.ts:146-206`).  Total:
every branch returns a response; backend failures are caught by the
`try`/`catch`.  `args?` is the optional `arguments` field, defaulted to
the empty record; `meta` is the request's `_meta` correlation token. -/
def handleCallTool (env : Env) (s : ProxyState) (name : String)
    (args? : Option Args) (meta : Option String) : CallToolResult :=
  let args := args?.getD []
  match mapGet s.toolMap name with
  | none =>
    .err ⟨"text",
      "Tool " ++ name ++ " not found in profile " ++ s.currentProfile,
      true, meta⟩
  | some toolInfo =>
    if s.clients.contains toolInfo.serverId then
      -- try block: the second lookup always re-finds the entry; its
      -- throw would be caught by the same catch as a backend failure
      match mapGet s.toolMap name with
      | none =>
        .err ⟨"text",
          "Error calling tool " ++ name ++
            ": Error: Original tool name not found for " ++ name,
          true, meta⟩
      | some mappedTool =>
        match env.callTool toolInfo.serverId mappedTool.tool.name args with
        | .ok result => .ok result
        | .error e =>
          .err ⟨"text", "Error calling tool " ++ name ++ ": " ++ e,
            true, meta⟩
    else
      .err ⟨"text",
        "Server " ++ toolInfo.serverId ++ " not connected in profile "
          ++ s.currentProfile,
        true, meta⟩

/-- The Express `POST /messages` route handler installed by
`MCPServerProxy.start` (`src/server.ts:315-331`): look the session id up
in `transports`; absent → `400 {"error": "No transport found for
sessionId"}`; present → delegate to `handlePostMessage`, converting a
throw into `500 {"error": "Internal server error"}`.  The route never
mutates the `transports` map; it is returned alongside the response. -/
def handleMessages (env : Env) (transports : List String)
    (sessionId : String) : HttpResponse × List String :=
  if transports.contains sessionId then
    match env.handlePostMessage sessionId with
    | .ok resp => (resp, transports)
    | .error _ => (⟨500, "Internal server error"⟩, transports)
  else
    (⟨400, "No transport found for sessionId"⟩, transports)

/-- `t` contains `sub` as a substring (stated on the character lists). -/
def containsStr (t sub : String) : Prop :=
  ∃ a b : List Char, t.data = a ++ sub.data ++ b

/-- Every toolMap entry's owning backend id is a registered client. -/
def clientInv (s : ProxyState) : Prop :=
  ∀ e ∈ s.toolMap, e.2.serverId ∈ s.clients

theorem mem_mapSet {α : Type} (m : List (String × α)) (k : String) (v : α)
    (e : String × α) (he : e ∈ mapSet m k v) : e ∈ m ∨ e = (k, v) := by
  unfold mapSet at he
  split at he
  · obtain ⟨x, hx, hfx⟩ := List.mem_map.mp he
    by_cases hk : x.1 == k
    · right
      rw [if_pos hk] at hfx
      exact hfx.symm
    · left
      rw [if_neg hk] at hfx
      exact hfx ▸ hx
  · rcases List.mem_append.mp he with h | h
    · exact Or.inl h
    · exact Or.inr (List.mem_singleton.mp h)

theorem mem_registerTools (sid : String) (tools : List Tool)
    (m : List (String × ToolInfo)) (e : String × ToolInfo)
    (he : e ∈ tools.foldl
      (fun m tool => mapSet m (sid ++ "_" ++ tool.name) ⟨sid, tool⟩) m) :
    e ∈ m ∨ ∃ t ∈ tools, e = (sid ++ "_" ++ t.name, ⟨sid, t⟩) := by
  induction tools generalizing m with
  | nil => exact Or.inl he
  | cons t ts ih =>
    rcases ih _ he with h | ⟨t', ht', rfl⟩
    · rcases mem_mapSet _ _ _ _ h with h' | rfl
      · exact Or.inl h'
      · exact Or.inr ⟨t, List.mem_cons_self t ts, rfl⟩
    · exact Or.inr ⟨t', List.mem_cons_of_mem t ht', rfl⟩

theorem connectToServer_toolMap_good (env : Env)
    (Good : String × ToolInfo → Prop) (s : ProxyState) (sid : String)
    (cfg : BackendConfig)
    (hnew : ∀ tools t, env.connect sid cfg = none →
      env.listTools sid = Except.ok tools → t ∈ tools →
      Good (sid ++ "_" ++ t.name, ⟨sid, t⟩))
    (hs : ∀ e ∈ s.toolMap, Good e) :
    ∀ e ∈ (connectToServer env s sid cfg).1.toolMap, Good e := by
  intro e he
  unfold connectToServer at he
  split at he
  · exact hs e he
  · split at he
    · exact hs e he
    · split at he
      case _ err hc => exact hs e he
      case _ hc =>
        split at he
        case _ err hl => exact hs e he
        case _ tools hl =>
          simp only at he
          rcases mem_registerTools sid tools _ e he with h | ⟨t, ht, rfl⟩
          · exact hs e h
          · exact hnew tools t hc hl ht

theorem foldl_connect_toolMap_good (env : Env)
    (Good : String × ToolInfo → Prop) (l : List (String × BackendConfig))
    (s : ProxyState)
    (hl : ∀ p ∈ l, ∀ tools t, env.connect p.1 p.2 = none →
      env.listTools p.1 = Except.ok tools → t ∈ tools →
      Good (p.1 ++ "_" ++ t.name, ⟨p.1, t⟩))
    (hs : ∀ e ∈ s.toolMap, Good e) :
    ∀ e ∈ (l.foldl (fun st p => (connectToServer env st p.1 p.2).1) s).toolMap,
      Good e := by
  induction l generalizing s with
  | nil => exact hs
  | cons p ps ih =>
    exact ih _ (fun q hq => hl q (List.mem_cons_of_mem p hq))
      (connectToServer_toolMap_good env Good s p.1 p.2
        (hl p (List.mem_cons_self p ps)) hs)

theorem connectToServer_clientInv (env : Env) (s : ProxyState) (sid : String)
    (cfg : BackendConfig) (h : clientInv s) :
    clientInv (connectToServer env s sid cfg).1 := by
  intro e
  unfold connectToServer
  split
  · exact h e
  · split
    · exact h e
    · split
      case _ err hc => exact h e
      case _ hc =>
        split
        case _ err hl =>
          intro he
          simp only at he ⊢
          exact List.mem_append_left _ (h e he)
        case _ tools hl =>
          intro he
          simp only at he ⊢
          rcases mem_registerTools sid tools _ e he with h' | ⟨t, ht, rfl⟩
          · exact List.mem_append_left _ (h e h')
          · exact List.mem_append_right _ (List.mem_singleton.mpr rfl)

theorem foldl_connect_clientInv (env : Env)
    (l : List (String × BackendConfig)) (s : ProxyState) (h : clientInv s) :
    clientInv (l.foldl (fun st p => (connectToServer env st p.1 p.2).1) s) := by
  induction l generalizing s with
  | nil => exact h
  | cons p ps ih => exact ih _ (connectToServer_clientInv env s p.1 p.2 h)

theorem switchProfile_err_eq (env : Env) (s : ProxyState) (p : String)
    (e : String) (h : env.readConfig p = Except.error e) :
    switchProfile env s p =
      ({ s with clients := [], toolMap := [], transports := [] },
        some ("Failed to load profile " ++ p)) := by
  obtain ⟨c, cl, tm, cp, tr⟩ := s
  simp only [switchProfile, cleanup, readConfig, h]

theorem switchProfile_ok_eq (env : Env) (s : ProxyState) (p : String)
    (cfg : ServerConfig) (h : env.readConfig p = Except.ok cfg) :
    switchProfile env s p =
      (cfg.mcpServers.foldl (fun st q => (connectToServer env st q.1 q.2).1)
        { config := cfg, clients := [], toolMap := [], currentProfile := p,
          transports := [] },
        none) := by
  obtain ⟨c, cl, tm, cp, tr⟩ := s
  simp only [switchProfile, cleanup, readConfig, h]

theorem connectToServer_failed_id (env : Env) (s : ProxyState) (sid : String)
    (cfg : BackendConfig)
    (h : (cfg.command.isNone && cfg.url.isNone) = true ∨
      (env.connect sid cfg).isSome = true) :
    (connectToServer env s sid cfg).1 = s := by
  unfold connectToServer
  split
  · rfl
  · split
    · rfl
    · case _ hno =>
      cases hc : env.connect sid cfg with
      | some err => rfl
      | none =>
        rcases h with h | h
        · exact absurd h hno
        · rw [hc] at h
          exact absurd h (by simp [Option.isSome])

theorem foldl_connect_all_fail (env : Env)
    (l : List (String × BackendConfig)) (s : ProxyState)
    (hl : ∀ p ∈ l, (p.2.command.isNone && p.2.url.isNone) = true ∨
      (env.connect p.1 p.2).isSome = true) :
    l.foldl (fun st p => (connectToServer env st p.1 p.2).1) s = s := by
  induction l generalizing s with
  | nil => rfl
  | cons p ps ih =>
    rw [List.foldl_cons,
      connectToServer_failed_id env s p.1 p.2 (hl p (List.mem_cons_self p ps))]
    exact ih s (fun q hq => hl q (List.mem_cons_of_mem p hq))

theorem switchProfile_state_indep (env : Env) (B : String)
    (cfg : ServerConfig) (h : env.readConfig B = Except.ok cfg)
    (s s' : ProxyState) :
    switchProfile env s B = switchProfile env s' B := by
  rw [switchProfile_ok_eq env s B cfg h, switchProfile_ok_eq env s' B cfg h]

/-- The decorated listing entry exactly as the spec words it: the name
is `<backendId>_<originalName>` and the description is the original
description annotated with `[<profile>/<backendId>] `; the input schema
is passed through. -/
def specDecorate (profile : String) (e : String × ToolInfo) : Tool :=
  { name := e.2.serverId ++ "_" ++ e.2.tool.name
    description := some ("[" ++ profile ++ "/" ++ e.2.serverId ++ "] "
      ++ e.2.tool.description.getD "")
    inputSchema := e.2.tool.inputSchema }

/-! ### Concrete fixtures used by the witnesses -/

/-- A sample tool reported by the `kubernetes` backend. -/
def toolGetPods : Tool := ⟨"get_pods", some "List pods", "schema"⟩

/-- A sample tool reported by the `filesystem` backend. -/
def toolReadFile : Tool := ⟨"read_file", some "Read a file", "schema"⟩

/-- A `{command, args}` backend spec. -/
def cfgK8s : BackendConfig := ⟨some ("npx", ["mcp-server-kubernetes"]), none⟩

/-- A `{url}` backend spec. -/
def cfgFs : BackendConfig := ⟨none, some "http://localhost:4000/sse"⟩

/-- A world where `config.developer.json` (one `kubernetes` backend) and
`config.personal.json` (one `filesystem` backend) exist, every connect
succeeds, each backend reports one tool, and tool calls succeed with a
tagged payload. -/
def envOk : Env :=
  { readConfig := fun p =>
      if p == "developer" then Except.ok ⟨[("kubernetes", cfgK8s)]⟩
      else if p == "personal" then Except.ok ⟨[("filesystem", cfgFs)]⟩
      else Except.error "ENOENT"
    connect := fun _ _ => none
    listTools := fun sid =>
      if sid == "kubernetes" then Except.ok [toolGetPods]
      else if sid == "filesystem" then Except.ok [toolReadFile]
      else Except.ok []
    callTool := fun sid name _ => Except.ok ("result:" ++ sid ++ ":" ++ name)
    handlePostMessage := fun _ => Except.ok ⟨200, "ok"⟩ }

/-- A world where `config.developer.json` exists but every backend
connect is refused and every tool call fails. -/
def envDown : Env :=
  { readConfig := fun p =>
      if p == "developer" then Except.ok ⟨[("kubernetes", cfgK8s)]⟩
      else Except.error "ENOENT"
    connect := fun _ _ => some "ECONNREFUSED"
    listTools := fun _ => Except.ok []
    callTool := fun _ _ _ => Except.error "Error: Connection closed"
    handlePostMessage := fun _ => Except.error "write failed" }

/-- An active `developer` profile: the `kubernetes` client is connected
and its `get_pods` tool is registered under `kubernetes_get_pods`. -/
def stateA : ProxyState :=
  { config := ⟨[("kubernetes", cfgK8s)]⟩
    clients := ["kubernetes"]
    toolMap := [("kubernetes_get_pods", ⟨"kubernetes", toolGetPods⟩)]
    currentProfile := "developer"
    transports := [] }

/-- Like `stateA` but the `kubernetes` client is gone from the client
map while its tool entry is still registered. -/
def stateNoClient : ProxyState :=
  { config := ⟨[("kubernetes", cfgK8s)]⟩
    clients := []
    toolMap := [("kubernetes_get_pods", ⟨"kubernetes", toolGetPods⟩)]
    currentProfile := "developer"
    transports := [] }

/-! ### The claims -/

/-- Claim C4: for every invoke of a qualified name present in the
registry whose owning backend client is connected, the proxy forwards
the caller's arguments to that backend under the original, unprefixed
operation name (`info.tool.name`), and on backend success returns the
backend's result unmodified. -/
theorem handleCallTool_forwards (env : Env) (s : ProxyState) (name : String)
    (args? : Option Args) (meta : Option String) (info : ToolInfo)
    (r : ToolResult)
    (h1 : mapGet s.toolMap name = some info)
    (h2 : s.clients.contains info.serverId = true)
    (h3 : env.callTool info.serverId info.tool.name (args?.getD []) =
      Except.ok r) :
    handleCallTool env s name args? meta = CallToolResult.ok r := by
  simp only [handleCallTool, h1, h2, if_true, h3]

/-- Witness for C4: in `stateA`, invoking `kubernetes_get_pods` with
empty arguments forwards `get_pods` to the `kubernetes` backend and
returns its payload verbatim. -/
theorem handleCallTool_forwards_w :
    handleCallTool envOk stateA "kubernetes_get_pods" (some []) none =
      CallToolResult.ok "result:kubernetes:get_pods" :=
  handleCallTool_forwards envOk stateA "kubernetes_get_pods" (some []) none
    ⟨"kubernetes", toolGetPods⟩ "result:kubernetes:get_pods"
    (by decide) (by decide) rfl

/-- Claim C5: invoking a qualified name that is not in the registry
completes normally (the handler is a total function; no throw channel)
with an error-flagged response whose text contains the qualified name
and the current profile name, and the request's `_meta` correlation
token is preserved. -/
theorem handleCallTool_not_found (env : Env) (s : ProxyState)
    (name : String) (args? : Option Args) (meta : Option String)
    (h : mapGet s.toolMap name = none) :
    ∃ r : ErrorResponse,
      handleCallTool env s name args? meta = CallToolResult.err r ∧
      r.isError = true ∧
      containsStr r.text name ∧
      containsStr r.text s.currentProfile ∧
      r.meta = meta := by
  refine ⟨⟨"text",
    "Tool " ++ name ++ " not found in profile " ++ s.currentProfile,
    true, meta⟩, ?_, rfl, ?_, ?_, rfl⟩
  · simp only [handleCallTool, h]
  · exact ⟨"Tool ".data,
      " not found in profile ".data ++ s.currentProfile.data,
      by simp [String.data_append]⟩
  · exact ⟨("Tool " ++ name ++ " not found in profile ").data, [],
      by simp [String.data_append]⟩

/-- Witness for C5: invoking `nope` against the freshly constructed
proxy yields the error-flagged response. -/
theorem handleCallTool_not_found_w :
    ∃ r : ErrorResponse,
      handleCallTool envOk initState "nope" none none =
        CallToolResult.err r ∧
      r.isError = true ∧
      containsStr r.text "nope" ∧
      containsStr r.text initState.currentProfile ∧
      r.meta = none :=
  handleCallTool_not_found envOk initState "nope" none none (by decide)

/-- Claim C6: invoking a qualified name that is in the registry while
the owning backend id has no entry in the client map (the code's
`!client` test at `src/server.ts:173`, the spec's "connection is
missing/closed") returns an error-flagged response whose text contains
the backend id and the current profile name, preserves `_meta`, and
does not throw (the handler is total). -/
theorem handleCallTool_not_connected (env : Env) (s : ProxyState)
    (name : String) (args? : Option Args) (meta : Option String)
    (info : ToolInfo)
    (h1 : mapGet s.toolMap name = some info)
    (h2 : s.clients.contains info.serverId = false) :
    ∃ r : ErrorResponse,
      handleCallTool env s name args? meta = CallToolResult.err r ∧
      r.isError = true ∧
      containsStr r.text info.serverId ∧
      containsStr r.text s.currentProfile ∧
      r.meta = meta := by
  refine ⟨⟨"text",
    "Server " ++ info.serverId ++ " not connected in profile "
      ++ s.currentProfile,
    true, meta⟩, ?_, rfl, ?_, ?_, rfl⟩
  · simp only [handleCallTool, h1, h2, Bool.false_eq_true, if_false]
  · exact ⟨"Server ".data,
      " not connected in profile ".data ++ s.currentProfile.data,
      by simp [String.data_append]⟩
  · exact ⟨("Server " ++ info.serverId ++ " not connected in profile ").data,
      [], by simp [String.data_append]⟩

/-- Witness for C6: invoking `kubernetes_get_pods` while the
`kubernetes` client is absent from the client map yields the
error-flagged response naming the backend and profile. -/
theorem handleCallTool_not_connected_w :
    ∃ r : ErrorResponse,
      handleCallTool envOk stateNoClient "kubernetes_get_pods" none none =
        CallToolResult.err r ∧
      r.isError = true ∧
      containsStr r.text "kubernetes" ∧
      containsStr r.text stateNoClient.currentProfile ∧
      r.meta = none :=
  handleCallTool_not_connected envOk stateNoClient "kubernetes_get_pods"
    none none ⟨"kubernetes", toolGetPods⟩ (by decide) (by decide)

/-- Claim C8: when the backend's `callTool` fails, the proxy catches it
and returns an error-flagged response whose text contains the qualified
name and the underlying error text, rather than propagating a
transport-level fault (the handler is total and returns the response).
The `_meta` token is preserved as well. -/
theorem handleCallTool_backend_error (env : Env) (s : ProxyState)
    (name : String) (args? : Option Args) (meta : Option String)
    (info : ToolInfo) (e : String)
    (h1 : mapGet s.toolMap name = some info)
    (h2 : s.clients.contains info.serverId = true)
    (h3 : env.callTool info.serverId info.tool.name (args?.getD []) =
      Except.error e) :
    ∃ r : ErrorResponse,
      handleCallTool env s name args? meta = CallToolResult.err r ∧
      r.isError = true ∧
      containsStr r.text name ∧
      containsStr r.text e ∧
      r.meta = meta := by
  refine ⟨⟨"text", "Error calling tool " ++ name ++ ": " ++ e,
    true, meta⟩, ?_, rfl, ?_, ?_, rfl⟩
  · simp only [handleCallTool, h1, h2, if_true, h3]
  · exact ⟨"Error calling tool ".data, ": ".data ++ e.data,
      by simp [String.data_append]⟩
  · exact ⟨("Error calling tool " ++ name ++ ": ").data, [],
      by simp [String.data_append]⟩

/-- Witness for C8: with the `kubernetes` backend's calls failing,
invoking `kubernetes_get_pods` yields the wrapped error response. -/
theorem handleCallTool_backend_error_w :
    ∃ r : ErrorResponse,
      handleCallTool envDown stateA "kubernetes_get_pods" none none =
        CallToolResult.err r ∧
      r.isError = true ∧
      containsStr r.text "kubernetes_get_pods" ∧
      containsStr r.text "Error: Connection closed" ∧
      r.meta = none :=
  handleCallTool_backend_error envDown stateA "kubernetes_get_pods"
    none none ⟨"kubernetes", toolGetPods⟩ "Error: Connection closed"
    (by decide) (by decide) rfl

/-- Claim C9: a posted message whose session id matches no registered
session is answered with the 400 "no transport" error response and the
session (transport) map is unchanged. -/
theorem handleMessages_unknown_session (env : Env)
    (sessions : List String) (sessionId : String)
    (h : sessions.contains sessionId = false) :
    handleMessages env sessions sessionId =
      (⟨400, "No transport found for sessionId"⟩, sessions) := by
  simp only [handleMessages, h, Bool.false_eq_true, if_false]

/-- Witness for C9: posting with an unknown session id against an empty
session map is rejected with the 400 response. -/
theorem handleMessages_unknown_session_w :
    handleMessages envOk [] "deadbeef" =
      (⟨400, "No transport found for sessionId"⟩, []) :=
  handleMessages_unknown_session envOk [] "deadbeef" (by decide)

/-- Claim C10: `connectToServer` for a backend id that is already in
the client map returns immediately with no thrown error and the state
(client set and tool registry included) completely unchanged, so a
repeated `connectToServer` for a registered id is a no-op. -/
theorem connectToServer_already_connected (env : Env) (s : ProxyState)
    (serverId : String) (cfg : BackendConfig)
    (h : s.clients.contains serverId = true) :
    connectToServer env s serverId cfg = (s, none) := by
  simp only [connectToServer, h, if_true]

/-- Witness for C10: reconnecting the already-registered `kubernetes`
backend leaves `stateA` unchanged. -/
theorem connectToServer_already_connected_w :
    connectToServer envOk stateA "kubernetes" cfgK8s = (stateA, none) :=
  connectToServer_already_connected envOk stateA "kubernetes" cfgK8s
    (by decide)

/-- Any state produced by `switchProfile` satisfies `clientInv`: every
registered tool's owning backend id is a registered client. -/
theorem switchProfile_clientInv (env : Env) (s : ProxyState) (p : String) :
    clientInv (switchProfile env s p).1 := by
  cases hrc : env.readConfig p with
  | error e =>
    rw [switchProfile_err_eq env s p e hrc]
    intro e' he'
    exact absurd he' (List.not_mem_nil _)
  | ok cfg =>
    rw [switchProfile_ok_eq env s p cfg hrc]
    exact foldl_connect_clientInv env cfg.mcpServers _
      (fun e he => absurd he (List.not_mem_nil _))

/-- Claim C1, as stated, is false on the code: `switchProfile` tears the
previous profile down (clearing `clients` and `toolMap`) before it
attempts to load the new profile's config, so a config-load failure
does not leave the previously active profile's state intact.  Concrete
counterexample: switching from the active `developer` profile to the
nonexistent `staging` profile returns the load error, yet the client
set no longer equals the previous one. -/
theorem switchProfile_load_failure_cex :
    (switchProfile envOk stateA "staging").2.isSome = true ∧
    ¬(switchProfile envOk stateA "staging").1.clients = stateA.clients ∧
    ¬(switchProfile envOk stateA "staging").1.toolMap = stateA.toolMap := by
  decide

/-- Claim C1 (amended): when loading the new profile's configuration
fails, `switchProfile` returns the load error, but the previously
active profile's state is already torn down: the client set, the tool
registry and the transports map are all empty after the failed switch;
the current profile name (and the previously parsed config value) are
the only fields retained from before. -/
theorem switchProfile_load_failure_state (env : Env) (s : ProxyState)
    (p e : String) (h : env.readConfig p = Except.error e) :
    (switchProfile env s p).2 = some ("Failed to load profile " ++ p) ∧
    (switchProfile env s p).1.clients = [] ∧
    (switchProfile env s p).1.toolMap = [] ∧
    (switchProfile env s p).1.currentProfile = s.currentProfile := by
  rw [switchProfile_err_eq env s p e h]
  exact ⟨rfl, rfl, rfl, rfl⟩

/-- Witness for the amended C1: the failed switch to `staging` reports
the load error and leaves empty client/tool state with the old profile
name. -/
theorem switchProfile_load_failure_state_w :
    (switchProfile envOk stateA "staging").2 =
      some ("Failed to load profile " ++ "staging") ∧
    (switchProfile envOk stateA "staging").1.clients = [] ∧
    (switchProfile envOk stateA "staging").1.toolMap = [] ∧
    (switchProfile envOk stateA "staging").1.currentProfile =
      stateA.currentProfile :=
  switchProfile_load_failure_state envOk stateA "staging" "ENOENT" rfl

/-- Claim C2: switching to profile `A` and then to profile `B` yields
exactly the same end state (the whole `ProxyState`: client set, tool
registry, current profile name, config, transports) and the same
outcome as a single fresh switch to `B` from the constructor state —
no residue of `A` survives the second switch. -/
theorem activate_twice_eq_fresh (env : Env) (A B : String)
    (cfg : ServerConfig) (h : env.readConfig B = Except.ok cfg) :
    switchProfile env (switchProfile env initState A).1 B =
      switchProfile env initState B :=
  switchProfile_state_indep env B cfg h _ _

/-- Witness for C2: activating `personal` and then `developer` ends in
the same state as activating `developer` directly. -/
theorem activate_twice_eq_fresh_w :
    switchProfile envOk (switchProfile envOk initState "personal").1
        "developer" =
      switchProfile envOk initState "developer" :=
  activate_twice_eq_fresh envOk "personal" "developer"
    ⟨[("kubernetes", cfgK8s)]⟩ rfl

/-- Claim C3: when the profile's config loads, the activation never
aborts on backend failures: `switchProfile` returns no error; every
entry of the resulting registry comes from a backend of the new config
whose connect succeeded and whose tool listing succeeded (and the entry
is one of the listed tools under the qualified name); and if every
backend fails to connect (bad spec or refused connect), the registry is
empty while the switch still succeeds. -/
theorem switchProfile_partial_failures (env : Env) (s : ProxyState)
    (P : String) (cfg : ServerConfig)
    (h : env.readConfig P = Except.ok cfg) :
    (switchProfile env s P).2 = none ∧
    (∀ e ∈ (switchProfile env s P).1.toolMap,
      ∃ c, (e.2.serverId, c) ∈ cfg.mcpServers ∧
        env.connect e.2.serverId c = none ∧
        ∃ ts, env.listTools e.2.serverId = Except.ok ts ∧
          e.2.tool ∈ ts) ∧
    ((∀ p ∈ cfg.mcpServers,
        (p.2.command.isNone && p.2.url.isNone) = true ∨
        (env.connect p.1 p.2).isSome = true) →
      (switchProfile env s P).1.toolMap = []) := by
  rw [switchProfile_ok_eq env s P cfg h]
  refine ⟨rfl, ?_, ?_⟩
  · exact foldl_connect_toolMap_good env
      (fun e => ∃ c, (e.2.serverId, c) ∈ cfg.mcpServers ∧
        env.connect e.2.serverId c = none ∧
        ∃ ts, env.listTools e.2.serverId = Except.ok ts ∧ e.2.tool ∈ ts)
      cfg.mcpServers _
      (fun p hp tools t hc hl ht => ⟨p.2, hp, hc, tools, hl, ht⟩)
      (fun e he => absurd he (List.not_mem_nil _))
  · intro hfail
    rw [foldl_connect_all_fail env cfg.mcpServers _ hfail]

/-- Witness for C3: with every backend connect refused, activating
`developer` still succeeds and yields an empty registry. -/
theorem switchProfile_partial_failures_w :
    (switchProfile envDown initState "developer").2 = none ∧
    (switchProfile envDown initState "developer").1.toolMap = [] := by
  have h := switchProfile_partial_failures envDown initState "developer"
    ⟨[("kubernetes", cfgK8s)]⟩ rfl
  exact ⟨h.1, h.2.2 (by decide)⟩

/-- Claim C7: the list-operations handler is a pure function of the
state (no side effects by construction, always returns); it produces
exactly one entry per registry entry; the listing equals the spec-side
decoration `specDecorate` (name `<backendId>_<originalName>`,
description `[<profile>/<backendId>] <original description>`, schema
passed through, the registry entries themselves untouched — the
decoration is display-only); an empty registry lists as the empty list;
and after any profile switch that left no backend connected the listing
is empty. -/
theorem handleListTools_spec (s : ProxyState) :
    (handleListTools s).length = s.toolMap.length ∧
    handleListTools s = s.toolMap.map (specDecorate s.currentProfile) ∧
    (s.toolMap = [] → handleListTools s = []) ∧
    (∀ (env : Env) (s' : ProxyState) (p : String),
      (switchProfile env s' p).1.clients = [] →
      handleListTools (switchProfile env s' p).1 = []) := by
  refine ⟨by simp [handleListTools], rfl, ?_, ?_⟩
  · intro h
    simp [handleListTools, h]
  · intro env s' p hcl
    have hempty : (switchProfile env s' p).1.toolMap = [] := by
      rcases hm : (switchProfile env s' p).1.toolMap with _ | ⟨e, es⟩
      · rfl
      · have hmem : e ∈ (switchProfile env s' p).1.toolMap := by
          rw [hm]; exact List.mem_cons_self e es
        have := switchProfile_clientInv env s' p e hmem
        rw [hcl] at this
        exact absurd this (List.not_mem_nil _)
    simp [handleListTools, hempty]

/-- Witness for C7: activating `developer` in a world where the backend
refuses the connection leaves no client and an empty listing. -/
theorem handleListTools_spec_w :
    handleListTools (switchProfile envDown initState "developer").1 = [] :=
  (handleListTools_spec initState).2.2.2 envDown initState "developer"
    (by decide)

end MCPProxy
